import Mathlib

/-!
Shallow embedding of the QR-code watermarking web service: the request
handler in handlers/handler.go, utils.UploadFile in utils/utils.go, and the
compositing pipeline of the qrcode package (simpleQRCode.Generate,
GenerateWithWatermark, addWatermark, resizeWatermark), together with
theorems settling the specification claims.

Conventions of the embedding:
- Pixels are the 16-bit alpha-premultiplied samples produced by Go's
  color.Color.RGBA(); machine arithmetic on them is Nat with explicit
  division, matching the uint32 arithmetic used by image/draw (all values
  stay far below 2^32, so no wraparound occurs in the Go code either).
- Raster blobs are modelled by the Blob type: a valid PNG encoding carries
  the image it decodes to; a JPEG-signature blob and corrupt bytes are the
  two non-PNG shapes the claims need. png.Decode and http.DetectContentType
  become total functions on Blob.
- The external resampler resize.Resize(width, 0, img, Lanczos3) from
  github.com/nfnt/resize is not code of this repository; it is a total
  library function with no error return, so the pipeline functions take it
  as an explicit parameter resizeLib. Theorems that need its documented
  dimension behavior take the hypothesis that it honors the target width.
- Stateful control flow (which decode happened, in which order, which
  branch ran) is made explicit by returning a List Event trace next to the
  result.
-/

namespace QRW

/-- Maximum 16-bit color sample, Go's image/draw constant m = 1<<16 - 1. -/
def chanMax : Nat := 65535

/-- A pixel in the 16-bit alpha-premultiplied representation produced by
Go's color.Color.RGBA(). -/
structure Pixel where
  r : Nat
  g : Nat
  b : Nat
  a : Nat
deriving DecidableEq, Repr

/-- One destination pixel of Go's draw.Over operator (image/draw): with
16-bit premultiplied samples, out = dst * (m - sa) / m + src per channel,
where m = 0xffff and sa is the source alpha. -/
def overBlend (d s : Pixel) : Pixel where
  r := d.r * (chanMax - s.a) / chanMax + s.r
  g := d.g * (chanMax - s.a) / chanMax + s.g
  b := d.b * (chanMax - s.a) / chanMax + s.b
  a := d.a * (chanMax - s.a) / chanMax + s.a

/-- An in-memory decoded raster: bounds [0, width) x [0, height) with the
minimum corner at the origin, as produced by png.Decode, image.NewRGBA and
the resize library in this program. -/
structure Image where
  width : Nat
  height : Nat
  pix : Int → Int → Pixel

/-- Bounds test for a pixel coordinate, image.Rectangle membership. -/
def Image.inB (img : Image) (x y : Int) : Bool :=
  decide (0 ≤ x) && decide (x < (img.width : Int)) &&
    decide (0 ≤ y) && decide (y < (img.height : Int))

/-- Bounds-checked pixel read: none witnesses an out-of-bounds access. -/
def Image.getPix (img : Image) (x y : Int) : Option Pixel :=
  if img.inB x y then some (img.pix x y) else none

/-- Result of draw.Draw(dst, src.Bounds().Add(offset), src, ZP, draw.Over):
image/draw clips the target rectangle to the destination bounds and to the
(shifted) source bounds, then blends each remaining pixel with the over
operator. Pixels of the source falling outside the destination are dropped. -/
def drawOver (dst src : Image) (ox oy : Int) : Image where
  width := dst.width
  height := dst.height
  pix := fun x y =>
    if dst.inB x y && src.inB (x - ox) (y - oy) then
      overBlend (dst.pix x y) (src.pix (x - ox) (y - oy))
    else dst.pix x y

/-- One destination pixel of drawOver computed with every pixel read
bounds-checked through Image.getPix: a none result would witness an
out-of-bounds access during compositing. -/
def drawOverSafe (dst src : Image) (ox oy x y : Int) : Option Pixel :=
  if dst.inB x y && src.inB (x - ox) (y - oy) then
    match dst.getPix x y, src.getPix (x - ox) (y - oy) with
    | some d, some s => some (overBlend d s)
    | _, _ => none
  else dst.getPix x y

/-- The fresh RGBA canvas after draw.Draw(m, base.Bounds(), base, ZP,
draw.Src) on image.NewRGBA(base.Bounds()): base pixels inside the bounds,
the zero pixel elsewhere. -/
def drawSrcCopy (base : Image) : Image where
  width := base.width
  height := base.height
  pix := fun x y => if base.inB x y then base.pix x y else Pixel.mk 0 0 0 0

/-- A raster blob at the granularity the program distinguishes: a valid PNG
encoding of some image, a JPEG-signature blob, or corrupt bytes that no
decoder accepts. -/
inductive Blob
  | png (img : Image)
  | jpeg
  | corrupt

/-- png.Decode on a blob: succeeds exactly on a valid PNG encoding. -/
def pngDecode : Blob → Option Image
  | .png img => some img
  | _ => none

/-- png.Encode of an in-memory image into a valid PNG blob. -/
def pngEncode (img : Image) : Blob := .png img

/-- http.DetectContentType sniffs the byte signature of the blob. -/
def detectContentType : Blob → String
  | .png _ => "image/png"
  | .jpeg => "image/jpeg"
  | .corrupt => "application/octet-stream"

/-- Observable steps of the pipeline, recorded in program order. -/
inductive Event
  | decodeBase
  | decodeWatermark
  | decodeResized
  | resizeCall (width : Nat)
  | libResize (width : Nat)
  | composite (ox oy : Int)
  | generateQR
  | plainQRPath
  | uploadFileCall (nilHandle : Bool)
  | sniff (contentType : String)
deriving DecidableEq, Repr

/-- Error values of the pipeline, one constructor per Go error site. -/
inductive Err
  | couldNotDecodeQRCode
  | couldNotDecodeWatermarkImage
  | couldNotResizeWatermark (inner : Err)
  | couldNotDecodeResizedWatermark
  | couldNotAddWatermark (inner : Err)
  | generateFailed (msg : String)
  | uploadFailed
deriving DecidableEq, Repr

/-- Rendering of the error values, following the Go format strings (the
upstream detail interpolated by fmt verbs is elided where the Go code
passes the wrong argument or no verb at all). -/
def errText : Err → String
  | .couldNotDecodeQRCode => "could not decode QR code"
  | .couldNotDecodeWatermarkImage => "could not decode watermark image"
  | .couldNotResizeWatermark _ => "Could not resize the watermark image."
  | .couldNotDecodeResizedWatermark => "could not decode watermark"
  | .couldNotAddWatermark e => "could not add watermark to QR code: " ++ errText e
  | .generateFailed e => "could not generate a QR code: " ++ e
  | .uploadFailed => "could not upload file."

/-- qrcode resizeWatermark: decode the watermark blob as PNG, hand the
image to the external resampler resize.Resize(width, 0, img, Lanczos3)
(passed in as resizeLib, a total function with no error return), and
re-encode the result. The only error path is the decode failure; the
target width is never inspected. -/
def resizeWatermark (resizeLib : Nat → Image → Image) (watermark : Blob)
    (width : Nat) : Except Err Blob × List Event :=
  match pngDecode watermark with
  | none => (.error .couldNotDecodeWatermarkImage, [.decodeWatermark])
  | some decodedImage =>
      (.ok (pngEncode (resizeLib width decodedImage)),
        [.decodeWatermark, .libResize width])

/-- qrcode addWatermark: decode the base QR raster, derive the overlay
target width as uint(float64(base.Dx()) * 0.25) — exact float arithmetic,
so Nat division by 4 — resize the watermark, decode the resized blob,
compute the centered offset from the base width on both axes (Go int
division on non-negative halves, then int subtraction), copy the base onto
a fresh canvas and composite the overlay with draw.Over. -/
def addWatermark (resizeLib : Nat → Image → Image)
    (qrCode watermarkData : Blob) : Except Err Blob × List Event :=
  match pngDecode qrCode with
  | none => (.error .couldNotDecodeQRCode, [.decodeBase])
  | some qrCodeData =>
      let watermarkWidth := qrCodeData.width / 4
      match resizeWatermark resizeLib watermarkData watermarkWidth with
      | (.error e, evs) =>
          (.error (.couldNotResizeWatermark e),
            .decodeBase :: .resizeCall watermarkWidth :: evs)
      | (.ok watermark, evs) =>
          match pngDecode watermark with
          | none =>
              (.error .couldNotDecodeResizedWatermark,
                .decodeBase :: .resizeCall watermarkWidth ::
                  (evs ++ [.decodeResized]))
          | some watermarkImage =>
              let off : Int :=
                ((qrCodeData.width / 2 : Nat) : Int) -
                  ((watermarkImage.width / 2 : Nat) : Int)
              let canvas := drawOver (drawSrcCopy qrCodeData) watermarkImage off off
              (.ok (pngEncode canvas),
                .decodeBase :: .resizeCall watermarkWidth ::
                  (evs ++ [.decodeResized, .composite off off]))

/-- simpleQRCode.Generate: wraps the external barcode encoder
qrcode.Encode(content, Medium, size) (passed in as the generate
parameter). -/
def Generate (generate : String → Int → Except String Blob)
    (content : String) (size : Int) : Except Err Blob :=
  match generate content size with
  | .error e => .error (.generateFailed e)
  | .ok b => .ok b

/-- simpleQRCode.GenerateWithWatermark: generate the plain QR raster, then
composite the watermark onto it, wrapping any compositing failure. -/
def GenerateWithWatermark (resizeLib : Nat → Image → Image)
    (generate : String → Int → Except String Blob) (content : String)
    (size : Int) (watermark : Blob) : Except Err Blob × List Event :=
  match Generate generate content size with
  | .error e => (.error e, [.generateQR])
  | .ok qrCode =>
      match addWatermark resizeLib qrCode watermark with
      | (.error e, evs) => (.error (.couldNotAddWatermark e), .generateQR :: evs)
      | (.ok b, evs) => (.ok b, .generateQR :: evs)

/-- Decimal digit accumulator for atoi: fails on the first non-digit. -/
def parseDigitsAux : List Char → Nat → Option Nat
  | [], acc => some acc
  | c :: cs, acc =>
      if c.isDigit then parseDigitsAux cs (acc * 10 + (c.toNat - 48)) else none

/-- strconv.Atoi on the raw form value: an optional sign followed by at
least one decimal digit; the empty string and any non-numeric string
fail. -/
def atoi (s : String) : Option Int :=
  match s.data with
  | [] => none
  | '-' :: [] => none
  | '-' :: c :: cs => (parseDigitsAux (c :: cs) 0).map (fun n => -(n : Int))
  | '+' :: [] => none
  | '+' :: c :: cs => (parseDigitsAux (c :: cs) 0).map Int.ofNat
  | cs => (parseDigitsAux cs 0).map Int.ofNat

/-- The JSON value written as the response body (json.NewEncoder.Encode):
a bare string or an object, the two shapes at issue. -/
inductive Json
  | str (s : String)
  | obj (fields : List (String × Json))

/-- Whether a JSON value is an object. -/
def Json.isObj : Json → Bool
  | .obj _ => true
  | .str _ => false

/-- The outcome of request.FormFile("watermark"): a file handle with no
error, the http.ErrMissingFile error (nil handle), or any other non-nil
error (also a nil handle). -/
inductive FormFileResult
  | file (f : Blob)
  | missingFile
  | otherError (msg : String)

/-- The request data the handler reads: the two form values and the
watermark form-file outcome. -/
structure Request where
  content : String
  size : String
  watermarkForm : FormFileResult

/-- What the handler writes back: a 400 with a JSON body, or a 200 with
image/png bytes. -/
inductive Response
  | badRequest (body : Json)
  | pngOut (data : Blob)

/-- utils.UploadFile: io.Copy the multipart file into memory. When the
handler reaches this call with a nil file handle (FormFile failed with a
non-missing-file error) the read on the nil handle faults; that fault is
modelled as the error return. A real handle yields its bytes. -/
def UploadFile (file : Option Blob) : Except Err Blob :=
  match file with
  | none => .error .uploadFailed
  | some b => .ok b

/-- The watermark branch of HandleRequest, reached whenever FormFile did
not report a missing file: upload the (possibly nil) handle, sniff the
content type, and run GenerateWithWatermark. The Go code re-tests the
UploadFile error value where it means to test the sniffed content type;
that error is nil on this path, so the not-a-PNG rejection is
unreachable, which the literal none scrutinee below makes explicit. -/
def watermarkPath (resizeLib : Nat → Image → Image)
    (generate : String → Int → Except String Blob) (content : String)
    (size : Int) (fileHandle : Option Blob) : Response × List Event :=
  match UploadFile fileHandle with
  | .error _ =>
      (.badRequest (.str "Could not upload the watermark image."),
        [.uploadFileCall fileHandle.isNone])
  | .ok watermark =>
      let contentType := detectContentType watermark
      match (none : Option Err) with
      | some e =>
          (.badRequest (.str ("Provided watermark image is a " ++ errText e ++
            " not a PNG. " ++ contentType ++ ".")),
            [.uploadFileCall fileHandle.isNone, .sniff contentType])
      | none =>
          match GenerateWithWatermark resizeLib generate content size watermark with
          | (.error e, evs) =>
              (.badRequest (.str
                ("Could not generate QR code with the watermark image. " ++
                  errText e)),
                .uploadFileCall fileHandle.isNone :: .sniff contentType :: evs)
          | (.ok codeData, evs) =>
              (.pngOut codeData,
                .uploadFileCall fileHandle.isNone :: .sniff contentType :: evs)

/-- handlers.HandleRequest: validate content, parse size, branch on the
FormFile outcome — the plain QR path only on the missing-file error — and
otherwise run the watermark path. -/
def HandleRequest (resizeLib : Nat → Image → Image)
    (generate : String → Int → Except String Blob) (req : Request) :
    Response × List Event :=
  if req.content = "" then
    (.badRequest (.str "Could not determine the desired QR code content."), [])
  else
    match atoi req.size with
    | none =>
        (.badRequest (.str "Could not determine the desired QR code size."), [])
    | some qrCodeSize =>
        match req.watermarkForm with
        | .missingFile =>
            (match Generate generate req.content qrCodeSize with
             | .error e =>
                 (.badRequest (.str ("Could not generate QR code. " ++ errText e)),
                   [.plainQRPath, .generateQR])
             | .ok codeData => (.pngOut codeData, [.plainQRPath, .generateQR]))
        | .file f => watermarkPath resizeLib generate req.content qrCodeSize (some f)
        | .otherError _ => watermarkPath resizeLib generate req.content qrCodeSize none

/-- Opaque mid-gray sample. -/
def grayPx : Pixel := ⟨32768, 32768, 32768, 65535⟩

/-- Fully opaque red sample in premultiplied form. -/
def redPx : Pixel := ⟨65535, 0, 0, 65535⟩

/-- A 256 x 256 opaque gray canvas, the Scenario A base. -/
def gray256 : Image := ⟨256, 256, fun _ _ => grayPx⟩

/-- A 100 x 100 fully opaque red square, the Scenario A overlay. -/
def red100 : Image := ⟨100, 100, fun _ _ => redPx⟩

/-- A 4 x 4 gray canvas used to exercise clipping. -/
def gray4 : Image := ⟨4, 4, fun _ _ => grayPx⟩

/-- A concrete stand-in for the external resampler that honors the target
width, used to instantiate witnesses. -/
def quarterLib : Nat → Image → Image := fun w img => ⟨w, img.height, img.pix⟩

/-- A barcode encoder stand-in that always yields the gray canvas. -/
def genGray : String → Int → Except String Blob := fun _ _ => .ok (.png gray256)

/-- C1: for every decodable base raster of width W, addWatermark passes
exactly floor(W * 0.25) = W / 4 as the target width to the resampler
(resizeWatermark), and any resampler honoring its target width returns an
overlay whose width does not exceed one quarter of the base width. -/
theorem resize_width_is_quarter_floor (resizeLib : Nat → Image → Image)
    (hdim : ∀ w img, (resizeLib w img).width = w) (qrImg wImg : Image) :
    Event.resizeCall (qrImg.width / 4) ∈
        (addWatermark resizeLib (Blob.png qrImg) (Blob.png wImg)).snd ∧
    qrImg.width / 4 = Nat.floor ((qrImg.width : ℚ) * 0.25) ∧
    ((resizeLib (qrImg.width / 4) wImg).width : ℚ) ≤ (qrImg.width : ℚ) * 0.25 := by
  refine ⟨?_, ?_, ?_⟩
  · simp [addWatermark, resizeWatermark, pngDecode, pngEncode]
  · have h : (qrImg.width : ℚ) * 0.25 = (qrImg.width : ℚ) / ((4 : ℕ) : ℚ) := by
      rw [show ((4 : ℕ) : ℚ) = 4 by norm_num, show (0.25 : ℚ) = 1 / 4 by norm_num]
      ring
    rw [h, Nat.floor_div_nat, Nat.floor_natCast]
  · rw [hdim]
    have h : (qrImg.width : ℚ) * 0.25 = (qrImg.width : ℚ) / ((4 : ℕ) : ℚ) := by
      rw [show ((4 : ℕ) : ℚ) = 4 by norm_num, show (0.25 : ℚ) = 1 / 4 by norm_num]
      ring
    rw [h]
    exact Nat.cast_div_le

/-- C1 witness: a 256-wide base passes 64 to the resampler and the honored
width 64 is at most a quarter of 256. -/
theorem resize_width_is_quarter_floor_wit :
    Event.resizeCall 64 ∈
        (addWatermark quarterLib (Blob.png gray256) (Blob.png red100)).snd ∧
    gray256.width / 4 = Nat.floor ((gray256.width : ℚ) * 0.25) ∧
    ((quarterLib (gray256.width / 4) red100).width : ℚ) ≤
      (gray256.width : ℚ) * 0.25 :=
  resize_width_is_quarter_floor quarterLib (fun _ _ => rfl) gray256 red100

/-- C2: the compositing offset recorded by addWatermark is
(W/2 - w/2, W/2 - w/2) with w the resized overlay width W/4: both
coordinates are computed from the base width under integer division,
whatever the heights of the base and the overlay are. -/
theorem center_offset_from_width (resizeLib : Nat → Image → Image)
    (hdim : ∀ w img, (resizeLib w img).width = w) (qrImg wImg : Image) :
    Event.composite
        (((qrImg.width / 2 : Nat) : Int) - ((qrImg.width / 4 / 2 : Nat) : Int))
        (((qrImg.width / 2 : Nat) : Int) - ((qrImg.width / 4 / 2 : Nat) : Int)) ∈
      (addWatermark resizeLib (Blob.png qrImg) (Blob.png wImg)).snd := by
  have h := hdim (qrImg.width / 4) wImg
  simp [addWatermark, resizeWatermark, pngDecode, pngEncode, h]

/-- C2 witness: the 256 x 256 base with the 64-wide resized overlay places
the overlay top-left corner at (96, 96). -/
theorem center_offset_from_width_wit :
    Event.composite 96 96 ∈
      (addWatermark quarterLib (Blob.png gray256) (Blob.png red100)).snd :=
  center_offset_from_width quarterLib (fun _ _ => rfl) gray256 red100

/-- Helper: the over operator at extreme source alpha values, on a
premultiplied source pixel. -/
theorem overBlend_alpha_cases (d s : Pixel)
    (hs : s.r ≤ s.a ∧ s.g ≤ s.a ∧ s.b ≤ s.a) :
    (s.a = chanMax → overBlend d s = s) ∧
    (s.a = 0 → overBlend d s = d) := by
  obtain ⟨hr, hg, hb⟩ := hs
  obtain ⟨dr, dg, db, da⟩ := d
  obtain ⟨sr, sg, sb, sa⟩ := s
  simp only at hr hg hb
  have hc : ∀ n : Nat, n * chanMax / chanMax = n := fun n => by
    simp only [chanMax]
    omega
  constructor
  · intro h
    simp only at h
    subst h
    simp [overBlend]
  · intro h
    simp only at h
    subst h
    simp only [Nat.le_zero] at hr hg hb
    subst hr
    subst hg
    subst hb
    simp [overBlend, hc]

/-- C4: at every destination pixel covered by the overlay, compositing
with draw.Over replaces the pixel exactly by the overlay pixel when its
alpha is maximal, and leaves it byte-identical to the base pixel when its
alpha is zero (overlay pixels being premultiplied). -/
theorem composite_alpha_extremes (dst src : Image) (ox oy x y : Int)
    (hd : dst.inB x y = true) (hs : src.inB (x - ox) (y - oy) = true)
    (hpre : (src.pix (x - ox) (y - oy)).r ≤ (src.pix (x - ox) (y - oy)).a ∧
      (src.pix (x - ox) (y - oy)).g ≤ (src.pix (x - ox) (y - oy)).a ∧
      (src.pix (x - ox) (y - oy)).b ≤ (src.pix (x - ox) (y - oy)).a) :
    ((src.pix (x - ox) (y - oy)).a = chanMax →
      (drawOver dst src ox oy).pix x y = src.pix (x - ox) (y - oy)) ∧
    ((src.pix (x - ox) (y - oy)).a = 0 →
      (drawOver dst src ox oy).pix x y = dst.pix x y) := by
  have hpix : (drawOver dst src ox oy).pix x y =
      overBlend (dst.pix x y) (src.pix (x - ox) (y - oy)) := by
    simp [drawOver, hd, hs]
  have h := overBlend_alpha_cases (dst.pix x y) (src.pix (x - ox) (y - oy)) hpre
  exact ⟨fun ha => by rw [hpix]; exact h.1 ha,
    fun ha => by rw [hpix]; exact h.2 ha⟩

/-- C4 witness: the opaque red overlay covering pixel (1, 1) of the gray
canvas replaces it with red exactly, and would leave it untouched were its
alpha zero. -/
theorem composite_alpha_extremes_wit :
    ((red100.pix (1 - 0) (1 - 0)).a = chanMax →
      (drawOver gray4 red100 0 0).pix 1 1 = red100.pix (1 - 0) (1 - 0)) ∧
    ((red100.pix (1 - 0) (1 - 0)).a = 0 →
      (drawOver gray4 red100 0 0).pix 1 1 = gray4.pix 1 1) :=
  composite_alpha_extremes gray4 red100 0 0 1 1 (by decide) (by decide)
    (by decide)

/-- C5: when the base bytes fail to decode, addWatermark aborts at once
with the base decode error, produces no output blob, and neither the
uploaded watermark nor any resized blob is ever decoded. -/
theorem base_decode_failure_aborts (resizeLib : Nat → Image → Image)
    (base wm : Blob) (h : pngDecode base = none) :
    addWatermark resizeLib base wm =
      (Except.error Err.couldNotDecodeQRCode, [Event.decodeBase]) ∧
    Event.decodeWatermark ∉ (addWatermark resizeLib base wm).snd ∧
    Event.decodeResized ∉ (addWatermark resizeLib base wm).snd := by
  have key : addWatermark resizeLib base wm =
      (Except.error Err.couldNotDecodeQRCode, [Event.decodeBase]) := by
    simp [addWatermark, h]
  refine ⟨key, ?_, ?_⟩ <;> rw [key] <;> simp

/-- C5 witness: corrupt base bytes abort before the red overlay is ever
decoded. -/
theorem base_decode_failure_aborts_wit :
    addWatermark quarterLib Blob.corrupt (Blob.png red100) =
      (Except.error Err.couldNotDecodeQRCode, [Event.decodeBase]) ∧
    Event.decodeWatermark ∉
      (addWatermark quarterLib Blob.corrupt (Blob.png red100)).snd ∧
    Event.decodeResized ∉
      (addWatermark quarterLib Blob.corrupt (Blob.png red100)).snd :=
  base_decode_failure_aborts quarterLib Blob.corrupt (Blob.png red100) rfl

/-- A request carrying a JPEG-signature watermark next to valid content
and size fields. -/
def jpegReq : Request := ⟨"https://example.com", "256", .file Blob.jpeg⟩

/-- C3 (code bug): a JPEG-signature watermark is never rejected by the
content-type check — the handler sniffs the type but then re-tests a nil
error, so the not-a-PNG rejection is unreachable. Instead the base QR code
is generated and decoded (the trace contains decodeBase), and the request
fails only when the watermark fails to PNG-decode inside resizeWatermark,
surfacing as the generate-with-watermark failure message. -/
theorem jpeg_watermark_not_rejected_by_sniff :
    HandleRequest quarterLib genGray jpegReq =
      (Response.badRequest (Json.str
        ("Could not generate QR code with the watermark image. " ++
          errText (Err.couldNotAddWatermark (Err.couldNotResizeWatermark
            Err.couldNotDecodeWatermarkImage)))),
        [Event.uploadFileCall false, Event.sniff "image/jpeg", Event.generateQR,
          Event.decodeBase, Event.resizeCall 64, Event.decodeWatermark]) := by
  rfl

/-- A request with valid content but an empty size field. -/
def noSizeReq : Request := ⟨"https://example.com", "", .missingFile⟩

/-- A request with an empty content field. -/
def noContentReq : Request := ⟨"", "256", .missingFile⟩

/-- A request whose size field does not parse as an integer. -/
def badSizeReq : Request := ⟨"https://example.com", "abc", .missingFile⟩

/-- C6 (code bug): on missing content or an unparseable size the handler
does answer 400 before the pipeline runs (the trace is empty), but the
JSON body it encodes is the bare message string, not an object of the
shape with an error field. -/
theorem validation_body_is_bare_string :
    HandleRequest quarterLib genGray noSizeReq =
      (Response.badRequest
        (Json.str "Could not determine the desired QR code size."), []) ∧
    HandleRequest quarterLib genGray noContentReq =
      (Response.badRequest
        (Json.str "Could not determine the desired QR code content."), []) ∧
    HandleRequest quarterLib genGray badSizeReq =
      (Response.badRequest
        (Json.str "Could not determine the desired QR code size."), []) ∧
    Json.isObj (Json.str "Could not determine the desired QR code size.") =
      false ∧
    Json.isObj (Json.str "Could not determine the desired QR code content.") =
      false :=
  ⟨rfl, rfl, rfl, rfl, rfl⟩

/-- C7 counterexample: resizeWatermark called with target width 0 on a
decodable watermark does not signal an error; it returns the re-encoded
output of the resize library. -/
theorem resize_zero_width_returns_ok :
    (resizeWatermark quarterLib (Blob.png red100) 0).fst =
      Except.ok (Blob.png (quarterLib 0 red100)) := rfl

/-- C7 amended: resizeWatermark signals an error exactly when the
watermark bytes fail to decode as PNG; the target width — zero included —
is never inspected and never produces an error. -/
theorem resize_error_iff_decode_failure (resizeLib : Nat → Image → Image)
    (wm : Blob) (width : Nat) :
    (∃ e, (resizeWatermark resizeLib wm width).fst = Except.error e) ↔
      pngDecode wm = none := by
  cases wm <;> simp [resizeWatermark, pngDecode]

/-- C8: compositing is clipping-safe: on every pixel of the destination
canvas, the bounds-checked evaluation succeeds (no out-of-bounds read),
destination pixels whose corresponding overlay coordinate lies outside the
overlay keep the base value, and the result canvas has exactly the
destination bounds, so overlay pixels beyond them are dropped. -/
theorem draw_over_clip_safe (dst src : Image) (ox oy x y : Int)
    (hx : dst.inB x y = true) :
    drawOverSafe dst src ox oy x y =
      some ((drawOver dst src ox oy).pix x y) ∧
    (src.inB (x - ox) (y - oy) = false →
      (drawOver dst src ox oy).pix x y = dst.pix x y) ∧
    (drawOver dst src ox oy).width = dst.width ∧
    (drawOver dst src ox oy).height = dst.height := by
  refine ⟨?_, ?_, rfl, rfl⟩
  · by_cases h : src.inB (x - ox) (y - oy) = true
    · simp [drawOverSafe, drawOver, Image.getPix, hx, h]
    · have h2 : src.inB (x - ox) (y - oy) = false := by
        revert h
        cases src.inB (x - ox) (y - oy) <;> simp
      simp [drawOverSafe, drawOver, Image.getPix, hx, h2]
  · intro h
    simp [drawOver, hx, h]

/-- C8 witness: a 100 x 100 overlay placed at (2, 2) on a 4 x 4 base
overflows the canvas; at the in-bounds pixel (3, 3) every access is
bounds-checked successfully and the result keeps the base bounds. -/
theorem draw_over_clip_safe_wit :
    drawOverSafe gray4 red100 2 2 3 3 =
      some ((drawOver gray4 red100 2 2).pix 3 3) ∧
    (red100.inB 1 1 = false →
      (drawOver gray4 red100 2 2).pix 3 3 = gray4.pix 3 3) ∧
    (drawOver gray4 red100 2 2).width = gray4.width ∧
    (drawOver gray4 red100 2 2).height = gray4.height :=
  draw_over_clip_safe gray4 red100 2 2 3 3 (by decide)

/-- Helper: the compositing pipeline never records the plain-QR branch. -/
theorem plainPath_not_in_addWatermark (resizeLib : Nat → Image → Image)
    (base wm : Blob) :
    Event.plainQRPath ∉ (addWatermark resizeLib base wm).snd := by
  cases base <;> cases wm <;>
    simp [addWatermark, resizeWatermark, pngDecode, pngEncode]

/-- Helper: GenerateWithWatermark never records the plain-QR branch. -/
theorem plainPath_not_in_gww (resizeLib : Nat → Image → Image)
    (generate : String → Int → Except String Blob) (content : String)
    (size : Int) (wm : Blob) :
    Event.plainQRPath ∉
      (GenerateWithWatermark resizeLib generate content size wm).snd := by
  cases hg : Generate generate content size with
  | error e => simp [GenerateWithWatermark, hg]
  | ok qrCode =>
      have hnot := plainPath_not_in_addWatermark resizeLib qrCode wm
      rcases ha : addWatermark resizeLib qrCode wm with ⟨r, evs⟩
      rw [ha] at hnot
      simp only at hnot
      cases r with
      | error e2 => simp [GenerateWithWatermark, hg, ha, hnot]
      | ok b => simp [GenerateWithWatermark, hg, ha, hnot]

/-- Helper: the watermark branch never records the plain-QR branch and
always records the UploadFile call on its (possibly nil) handle. -/
theorem watermarkPath_events (resizeLib : Nat → Image → Image)
    (generate : String → Int → Except String Blob) (content : String)
    (size : Int) (fileHandle : Option Blob) :
    Event.plainQRPath ∉
      (watermarkPath resizeLib generate content size fileHandle).snd ∧
    Event.uploadFileCall fileHandle.isNone ∈
      (watermarkPath resizeLib generate content size fileHandle).snd := by
  cases fileHandle with
  | none => simp [watermarkPath, UploadFile]
  | some f =>
      have hnot := plainPath_not_in_gww resizeLib generate content size f
      rcases hg : GenerateWithWatermark resizeLib generate content size f
        with ⟨r, evs⟩
      rw [hg] at hnot
      simp only at hnot
      cases r with
      | error e => simp [watermarkPath, UploadFile, hg, hnot]
      | ok b => simp [watermarkPath, UploadFile, hg, hnot]

/-- C10: the handler takes the plain no-watermark path exactly when the
watermark form-file extraction failed with the missing-file error; any
other extraction error is not answered as such — the handler falls
through and reads the nil file handle via UploadFile. -/
theorem plain_path_iff_missing_file (resizeLib : Nat → Image → Image)
    (generate : String → Int → Except String Blob) (req : Request)
    (hc : req.content ≠ "") (hs : (atoi req.size).isSome = true) :
    (req.watermarkForm = FormFileResult.missingFile →
      Event.plainQRPath ∈ (HandleRequest resizeLib generate req).snd) ∧
    (Event.plainQRPath ∈ (HandleRequest resizeLib generate req).snd →
      req.watermarkForm = FormFileResult.missingFile) ∧
    (∀ m, req.watermarkForm = FormFileResult.otherError m →
      Event.uploadFileCall true ∈ (HandleRequest resizeLib generate req).snd) := by
  obtain ⟨n, hn⟩ := Option.isSome_iff_exists.mp hs
  rcases req with ⟨content, size, form⟩
  simp only at hc hn ⊢
  cases form with
  | missingFile =>
      refine ⟨fun _ => ?_, fun _ => rfl, fun m hm => (nomatch hm)⟩
      cases hg : Generate generate content n <;>
        simp [HandleRequest, hc, hn, hg]
  | file f =>
      have h := watermarkPath_events resizeLib generate content n (some f)
      refine ⟨fun hm => (nomatch hm), fun hm => ?_, fun m hm => (nomatch hm)⟩
      exact absurd (by simpa [HandleRequest, hc, hn] using hm) h.1
  | otherError m0 =>
      have h := watermarkPath_events resizeLib generate content n none
      refine ⟨fun hm => (nomatch hm), fun hm => ?_, fun m hm => ?_⟩
      · exact absurd (by simpa [HandleRequest, hc, hn] using hm) h.1
      · simpa [HandleRequest, hc, hn] using h.2

/-- A request whose watermark form-file extraction fails with an error
other than the missing-file error. -/
def otherErrReq : Request :=
  ⟨"https://example.com", "256", .otherError "request Content-Type is not multipart"⟩

/-- C10 witness: on a non-missing-file extraction error the handler does
not take the plain path and calls UploadFile on the nil handle. -/
theorem plain_path_iff_missing_file_wit :
    (otherErrReq.watermarkForm = FormFileResult.missingFile →
      Event.plainQRPath ∈ (HandleRequest quarterLib genGray otherErrReq).snd) ∧
    (Event.plainQRPath ∈ (HandleRequest quarterLib genGray otherErrReq).snd →
      otherErrReq.watermarkForm = FormFileResult.missingFile) ∧
    (∀ m, otherErrReq.watermarkForm = FormFileResult.otherError m →
      Event.uploadFileCall true ∈
        (HandleRequest quarterLib genGray otherErrReq).snd) :=
  plain_path_iff_missing_file quarterLib genGray otherErrReq
    (by decide) (by decide)

end QRW
